import Mathlib

/-!
Shallow embedding of the Sunray mower motion-control core
(`src/sunray/StateEstimator.cpp`, `src/sunray/LineTracker.cpp`,
`src/sunray/bumper.cpp`, `src/sunray/robot.cpp`) together with proofs of the
specification claims about it.

C++ `float` values are modelled as real numbers; `unsigned long` millisecond
timestamps as naturals.  Configuration constants that live in `config.h`
(which is not part of the sources) are carried as fields of explicit
configuration records.  Helper functions from `helper.cpp` (not part of the
sources) are modelled from the specification, see the individual doc comments.
-/

namespace Sunray

open Real Classical

noncomputable section

/-- Modelled from the spec: `wrapAngle` (source helper `scalePI`, `helper.cpp`
is not among the sources) canonicalizes any angle into the interval (−π, π]. -/
def scalePI (a : ℝ) : ℝ := a - 2 * π * (⌈(a - π) / (2 * π)⌉ : ℤ)

/-- Modelled from the spec: `angleDifference` (source helper `distancePI`):
shortest signed rotation from `x` to `w`, wrapped into (−π, π]. -/
def distancePI (x w : ℝ) : ℝ := scalePI (w - x)

/-- Modelled from the spec: `unwrapTo` (source helper `scalePIangles`):
adjusts `setAngle` by ±2π increments so that it lies within π of `currAngle`. -/
def scalePIangles (setAngle currAngle : ℝ) : ℝ :=
  currAngle + scalePI (setAngle - currAngle)

/-- Modelled from the spec: `blendAngles` (source helper `fusionPI`):
weighted circular interpolation, weight `w` on `a` — unwrap `b` toward `a`,
then interpolate linearly. -/
def fusionPI (w a b : ℝ) : ℝ := w * a + (1 - w) * scalePIangles b a

/-- Modelled from the spec/libm: four-quadrant arctangent `atan2(y, x)`. -/
def atan2 (y x : ℝ) : ℝ :=
  if 0 < x then Real.arctan (y / x)
  else if x < 0 then
    (if 0 ≤ y then Real.arctan (y / x) + π else Real.arctan (y / x) - π)
  else
    (if 0 < y then π / 2 else if y < 0 then -(π / 2) else 0)

/-- Modelled from the spec: Euclidean distance (source helper `distance`). -/
def distance (x1 y1 x2 y2 : ℝ) : ℝ := Real.sqrt ((x2 - x1) ^ 2 + (y2 - y1) ^ 2)

/-- GPS solution quality (`SOL_INVALID` / `SOL_FLOAT` / `SOL_FIXED`). -/
inductive Solution where
  | invalid : Solution
  | float : Solution
  | fixed : Solution
deriving DecidableEq

/-- The pose-estimator state mutated by the GPS block of
`StateEstimator.cpp::computeRobotState` (lines 303–367): global variables of
`StateEstimator.cpp` / `robot.cpp` read or written there. -/
structure EstimatorState where
  stateX : ℝ
  stateY : ℝ
  stateDelta : ℝ
  stateDeltaIMU : ℝ
  stateGroundSpeed : ℝ
  lastPosN : ℝ
  lastPosE : ℝ
  lastPosDelta : ℝ
  gpsJump : Bool
  resetLastPos : Bool
  solutionTime : ℕ
  lastSolutionTime : ℕ
  lastFixTime : ℕ


/-- Inputs consumed by the GPS block of `computeRobotState` in one tick:
the GPS sample (`gps.*`, already converted to local-plane `posN`/`posE`,
cf. lines 292–297), the clock, the commanded speeds and the planner
configuration flags (`maps.*`). -/
structure GpsInput where
  solutionAvail : Bool
  solution : Solution
  posN : ℝ
  posE : ℝ
  groundSpeed : ℝ
  now : ℕ
  linearSpeedSet : ℝ
  angularSpeedSet : ℝ
  useGPSfixForDeltaEstimation : Bool
  useGPSfloatForDeltaEstimation : Bool
  useGPSfixForPosEstimation : Bool
  useGPSfloatForPosEstimation : Bool


/-- `StateEstimator.cpp` lines 315–325: displacement above the jump threshold
(or no valid baseline): possibly flag a GPS jump, then re-baseline. -/
def gpsJumpBranch (s : EstimatorState) (i : GpsInput) (distGPS : ℝ)
    (solutionTimeDelta : ℕ) : EstimatorState :=
  let s1 := if distGPS > 0.3 ∧ solutionTimeDelta < 350 then
              { s with gpsJump := true } else s
  { s1 with resetLastPos := false, lastPosN := i.posN, lastPosE := i.posE,
            lastPosDelta := s1.stateDelta }

/-- `StateEstimator.cpp` lines 326–352: moderate displacement — derive a
heading from the displacement vector and fuse it into `stateDelta`
(45° snap vs. 90/10 complementary blend), then re-baseline. -/
def gpsFusionBranch (s : EstimatorState) (i : GpsInput) : EstimatorState :=
  let diffLastPosDelta := distancePI s.stateDelta s.lastPosDelta
  let s1 :=
    if |diffLastPosDelta| / π * 180 < 10 then
      if |i.linearSpeedSet| > 0 ∧ |i.angularSpeedSet| / π * 180 < 45 then
        let sdg0 := scalePI (atan2 (i.posN - s.lastPosN) (i.posE - s.lastPosE))
        let stateDeltaGPS := if i.linearSpeedSet < 0 then scalePI (sdg0 + π) else sdg0
        let diffDelta := distancePI s.stateDelta stateDeltaGPS
        if (i.solution = .fixed ∧ i.useGPSfixForDeltaEstimation) ∨
           (i.solution = .float ∧ i.useGPSfloatForDeltaEstimation) then
          if |diffDelta / π * 180| > 45 then
            { s with stateDelta := stateDeltaGPS, stateDeltaIMU := 0 }
          else
            { s with stateDelta :=
                scalePI (fusionPI 0.9 s.stateDelta (scalePIangles stateDeltaGPS s.stateDelta)) }
        else s
      else s
    else s
  { s1 with lastPosN := i.posN, lastPosE := i.posE, lastPosDelta := s1.stateDelta }

/-- `StateEstimator.cpp` lines 353–366: hard position overwrite from GPS when
the solution quality and the planner configuration permit it. -/
def gpsPosBranch (s : EstimatorState) (i : GpsInput) : EstimatorState :=
  if i.solution = .fixed then
    let s1 := { s with lastFixTime := i.now }
    if i.useGPSfixForPosEstimation then
      { s1 with stateX := i.posE, stateY := i.posN } else s1
  else
    if i.useGPSfloatForPosEstimation then
      { s with stateX := i.posE, stateY := i.posN } else s

/-- `StateEstimator.cpp` lines 303–367: the whole GPS acceptance block of
`computeRobotState` — executed when a fresh FIXED/FLOAT solution is available. -/
def computeGpsBlock (s : EstimatorState) (i : GpsInput) : EstimatorState :=
  if i.solutionAvail ∧ (i.solution = .fixed ∨ i.solution = .float) then
    let solutionTimeDelta := i.now - s.solutionTime
    let s1 := { s with lastSolutionTime := s.solutionTime, solutionTime := i.now,
                       stateGroundSpeed := i.groundSpeed }
    let distGPS := Real.sqrt ((i.posN - s1.lastPosN) ^ 2 + (i.posE - s1.lastPosE) ^ 2)
    let s2 :=
      if distGPS > 0.3 ∨ s1.resetLastPos then gpsJumpBranch s1 i distGPS solutionTimeDelta
      else if distGPS > 0.1 then gpsFusionBranch s1 i
      else s1
    gpsPosBranch s2 i
  else s

lemma gpsPosBranch_stateDelta (s : EstimatorState) (i : GpsInput) :
    (gpsPosBranch s i).stateDelta = s.stateDelta := by
  unfold gpsPosBranch
  split_ifs <;> rfl

lemma gpsPosBranch_gpsJump (s : EstimatorState) (i : GpsInput) :
    (gpsPosBranch s i).gpsJump = s.gpsJump := by
  unfold gpsPosBranch
  split_ifs <;> rfl

lemma gpsPosBranch_lastPosN (s : EstimatorState) (i : GpsInput) :
    (gpsPosBranch s i).lastPosN = s.lastPosN := by
  unfold gpsPosBranch
  split_ifs <;> rfl

lemma gpsPosBranch_lastPosE (s : EstimatorState) (i : GpsInput) :
    (gpsPosBranch s i).lastPosE = s.lastPosE := by
  unfold gpsPosBranch
  split_ifs <;> rfl

/-- C2: on a tick that accepts a FIXED/FLOAT solution whose displacement from
the last accepted position exceeds the 0.3 m jump threshold while the time
since the previous solution is below the 350 ms jump-time threshold, the
`gpsJump` flag is set, the heading estimate `stateDelta` receives no GPS
fusion (neither blend nor snap), and the sample still becomes the new
position baseline (`lastPosN`/`lastPosE`). -/
theorem gpsJump_sets_flag_skips_fusion_rebaselines
    (s : EstimatorState) (i : GpsInput)
    (hAvail : i.solutionAvail = true)
    (hSol : i.solution = .fixed ∨ i.solution = .float)
    (hDist : Real.sqrt ((i.posN - s.lastPosN) ^ 2 + (i.posE - s.lastPosE) ^ 2) > 0.3)
    (hTime : i.now - s.solutionTime < 350) :
    (computeGpsBlock s i).gpsJump = true ∧
    (computeGpsBlock s i).stateDelta = s.stateDelta ∧
    (computeGpsBlock s i).lastPosN = i.posN ∧
    (computeGpsBlock s i).lastPosE = i.posE := by
  unfold computeGpsBlock
  rw [if_pos ⟨hAvail, hSol⟩]
  simp only [gpsPosBranch_gpsJump, gpsPosBranch_stateDelta, gpsPosBranch_lastPosN,
    gpsPosBranch_lastPosE]
  rw [if_pos (Or.inl hDist)]
  unfold gpsJumpBranch
  rw [if_pos ⟨hDist, hTime⟩]
  exact ⟨rfl, rfl, rfl, rfl⟩

/-- C2 witness: a 0.5 m displacement arriving 200 ms after the previous
solution sets the jump flag, leaves the heading untouched and re-baselines. -/
theorem gpsJump_sets_flag_skips_fusion_rebaselines_witness :
    (computeGpsBlock
        ⟨0, 0, 0.2, 0, 0, 0, 0, 0, false, false, 1000, 600, 0⟩
        ⟨true, .fixed, 0.5, 0, 0.1, 1200, 0.2, 0, true, true, true, true⟩).gpsJump = true ∧
    (computeGpsBlock
        ⟨0, 0, 0.2, 0, 0, 0, 0, 0, false, false, 1000, 600, 0⟩
        ⟨true, .fixed, 0.5, 0, 0.1, 1200, 0.2, 0, true, true, true, true⟩).stateDelta = 0.2 ∧
    (computeGpsBlock
        ⟨0, 0, 0.2, 0, 0, 0, 0, 0, false, false, 1000, 600, 0⟩
        ⟨true, .fixed, 0.5, 0, 0.1, 1200, 0.2, 0, true, true, true, true⟩).lastPosN = 0.5 ∧
    (computeGpsBlock
        ⟨0, 0, 0.2, 0, 0, 0, 0, 0, false, false, 1000, 600, 0⟩
        ⟨true, .fixed, 0.5, 0, 0.1, 1200, 0.2, 0, true, true, true, true⟩).lastPosE = 0 := by
  refine gpsJump_sets_flag_skips_fusion_rebaselines _ _ rfl (Or.inl rfl) ?_ (by norm_num)
  have h : ((0.5 : ℝ) - 0) ^ 2 + ((0 : ℝ) - 0) ^ 2 = 0.5 ^ 2 := by norm_num
  rw [h, Real.sqrt_sq (by norm_num)]
  norm_num

/-- C1: on a tick that accepts a FIXED/FLOAT solution with a valid baseline,
displacement in (0.1 m, 0.3 m], heading change since the last accepted
position under 10°, a nonzero commanded linear speed, commanded angular rate
under 45°/s, and configuration permitting the solution quality for heading
estimation: if the disagreement between the heading estimate and the
GPS-displacement-derived heading exceeds 45°, the heading estimate is set
exactly to the GPS-derived heading, otherwise it becomes the circular
90/10 blend of the old estimate with the GPS-derived heading. -/
theorem gps_heading_fusion_snap_or_blend
    (s : EstimatorState) (i : GpsInput)
    (hAvail : i.solutionAvail = true)
    (hSol : i.solution = .fixed ∨ i.solution = .float)
    (hReset : s.resetLastPos = false)
    (hDistHi : Real.sqrt ((i.posN - s.lastPosN) ^ 2 + (i.posE - s.lastPosE) ^ 2) ≤ 0.3)
    (hDistLo : Real.sqrt ((i.posN - s.lastPosN) ^ 2 + (i.posE - s.lastPosE) ^ 2) > 0.1)
    (hTurn : |distancePI s.stateDelta s.lastPosDelta| / π * 180 < 10)
    (hLin : |i.linearSpeedSet| > 0)
    (hAng : |i.angularSpeedSet| / π * 180 < 45)
    (hCfg : (i.solution = .fixed ∧ i.useGPSfixForDeltaEstimation = true) ∨
            (i.solution = .float ∧ i.useGPSfloatForDeltaEstimation = true)) :
    (computeGpsBlock s i).stateDelta =
      (let sdg0 := scalePI (atan2 (i.posN - s.lastPosN) (i.posE - s.lastPosE))
       let stateDeltaGPS := if i.linearSpeedSet < 0 then scalePI (sdg0 + π) else sdg0
       if |distancePI s.stateDelta stateDeltaGPS / π * 180| > 45 then stateDeltaGPS
       else scalePI (fusionPI 0.9 s.stateDelta (scalePIangles stateDeltaGPS s.stateDelta))) := by
  unfold computeGpsBlock
  rw [if_pos ⟨hAvail, hSol⟩]
  simp only [gpsPosBranch_stateDelta]
  rw [if_neg (by
    push_neg
    exact ⟨hDistHi, by simp [hReset]⟩)]
  rw [if_pos hDistLo]
  unfold gpsFusionBranch
  simp only
  rw [if_pos hTurn, if_pos ⟨hLin, hAng⟩]
  rcases hCfg with ⟨hq, hu⟩ | ⟨hq, hu⟩ <;>
    rw [if_pos (by simp [hq, hu])] <;>
    split_ifs <;> rfl

lemma scalePI_zero : scalePI 0 = 0 := by
  unfold scalePI
  have hπ : (π : ℝ) ≠ 0 := Real.pi_ne_zero
  have h : ((0 : ℝ) - π) / (2 * π) = -(1 / 2) := by
    field_simp
    ring
  rw [h]
  have hc : ⌈(-(1 / 2) : ℝ)⌉ = 0 := by
    rw [Int.ceil_eq_zero_iff]
    constructor <;> norm_num
  rw [hc]
  simp

/-- C1 witness: accepted FIXED fix with a 0.2 m displacement straight ahead of
a zero heading estimate, robot not turning, commanded straight at 0.1 m/s:
the heading estimate becomes the snap-or-blend value of the theorem (here the
disagreement is 0°, so the 90/10 blend applies). -/
theorem gps_heading_fusion_snap_or_blend_witness :
    (computeGpsBlock
        ⟨0, 0, 0, 0, 0, 0, 0, 0, false, false, 1000, 600, 0⟩
        ⟨true, .fixed, 0, 0.2, 0.1, 1400, 0.1, 0, true, true, true, true⟩).stateDelta =
      (let sdg0 := scalePI (atan2 ((0 : ℝ) - 0) ((0.2 : ℝ) - 0))
       let stateDeltaGPS := if (0.1 : ℝ) < 0 then scalePI (sdg0 + π) else sdg0
       if |distancePI 0 stateDeltaGPS / π * 180| > 45 then stateDeltaGPS
       else scalePI (fusionPI 0.9 0 (scalePIangles stateDeltaGPS 0))) := by
  have hsqrt : Real.sqrt (((0 : ℝ) - 0) ^ 2 + ((0.2 : ℝ) - 0) ^ 2) = 0.2 := by
    rw [show ((0 : ℝ) - 0) ^ 2 + ((0.2 : ℝ) - 0) ^ 2 = 0.2 ^ 2 by norm_num,
      Real.sqrt_sq (by norm_num)]
  refine gps_heading_fusion_snap_or_blend _ _ rfl (Or.inl rfl) rfl ?_ ?_ ?_ (by norm_num)
    ?_ (Or.inl ⟨rfl, rfl⟩)
  · rw [hsqrt]
    norm_num
  · rw [hsqrt]
    norm_num
  · show |distancePI 0 0| / π * 180 < 10
    rw [distancePI, sub_zero, scalePI_zero, abs_zero, zero_div, zero_mul]
    norm_num
  · show |(0 : ℝ)| / π * 180 < 45
    rw [abs_zero, zero_div, zero_mul]
    norm_num

/-- Configuration constants from `config.h` (not among the sources) that
`LineTracker.cpp` reads; carried as an explicit record. -/
structure LineCfg where
  TRANSITION_ANGLE : ℝ
  ROTATION_RAMP : Bool
  ROTATION_RAMP_MIN : ℝ
  ROTATION_RAMP_MAX : ℝ
  ANGLEDIFF1 : ℝ
  ANGLEDIFF2 : ℝ
  ANGLEPRECISE : ℝ
  ROTATETOTARGETSPEED1 : ℝ
  ROTATETOTARGETSPEED2 : ℝ
  ROTATETOTARGETSPEED3 : ℝ
  MAP_STANLEY_CONTROL : Bool
  STANLEY_FLOAT_K_NORMAL : ℝ
  STANLEY_FLOAT_P_NORMAL : ℝ
  STANLEY_FLOAT_K_SLOW : ℝ
  STANLEY_FLOAT_P_SLOW : ℝ
  MOTOR_MIN_SPEED : ℝ
  MOTOR_MAX_SPEED : ℝ
  FLOATSPEED : ℝ
  NEARWAYPOINTSPEED : ℝ
  SONARSPEED : ℝ
  OVERLOADSPEED : ℝ
  KEEPSLOWSPEED : ℝ
  RETRYSLOWSPEED : ℝ
  TRACKSLOWSPEED : ℝ
  DOCK_NO_ROTATION_SPEED : ℝ
  DOCKPATHSPEED : ℝ
  DOCKSPEED : ℝ
  NEARWAYPOINTDISTANCE : ℝ
  DISTANCE_RAMP : Bool
  DISTANCE_RAMP_MINSPEED : ℝ
  TRANSITION_SPEED : ℝ
  KIDNAP_DETECT : Bool
  KIDNAP_DETECT_ALLOWED_PATH_TOLERANCE : ℝ
  KIDNAP_DETECT_ALLOWED_PATH_TOLERANCE_DOCK_UNDOCK : ℝ
  KIDNAP_DETECT_DISTANCE_DOCK_UNDOCK : ℝ

/-- `LineTracker.cpp` lines 72–84 (`AngleToTargetFits`): the "angle fits"
gate.  The three sequential overrides of the C++ `angleToTargetFits` global
(lines 74–82) are the three successive bindings. -/
def AngleToTargetFits (cfg : LineCfg)
    (targetDist lastTargetDist distToPath trackerDiffDelta : ℝ)
    (angleToTargetPrecise dockTimer unDockTimer : Bool) : Bool :=
  let fits0 : Bool :=
    if targetDist < 0.3 ∨ lastTargetDist < 0.3 ∨ |distToPath| > 1.0 then
      decide (|trackerDiffDelta| / π * 180 ≤ cfg.TRANSITION_ANGLE)
    else
      decide (|trackerDiffDelta| / π * 180 < 45)
  let fits1 : Bool := if !fits0 || !angleToTargetPrecise then false else fits0
  if dockTimer || unDockTimer then true else fits1

/-- Result of `LineTracker.cpp::rotateToTarget`: the `linear`/`angular`
command globals, the updated `angleToTargetPrecise` flag, and whether
`resetStateEstimation()` is called on this tick. -/
structure RotateResult where
  linear : ℝ
  angular : ℝ
  angleToTargetPrecise : Bool
  resetStateEstimationCalled : Bool

/-- `LineTracker.cpp` lines 86–114 (`rotateToTarget`): rotate-in-place
sub-controller.  The sequence of C++ assignments to `angular` (last
assignment wins) is rendered as a chain of rebindings; in the non-ramp tier
selection (lines 99–101) the three sequential `if`s are equivalent to the
nested conditional written here because the later assignments override the
earlier ones. -/
def rotateToTarget (cfg : LineCfg) (angleToTargetFits anglePrecise : Bool)
    (trackerDiffDelta CurrSpeed CurrRot : ℝ) : RotateResult :=
  let precise := if !angleToTargetFits then false else anglePrecise
  let angular : ℝ :=
    if cfg.ROTATION_RAMP then
      max (cfg.ROTATION_RAMP_MIN / 180 * π) (min (cfg.ROTATION_RAMP_MAX / 180 * π)
        (|trackerDiffDelta| + cfg.ROTATION_RAMP_MIN / 180 * π))
    else
      if |trackerDiffDelta| / π * 180 ≤ cfg.ANGLEDIFF2 then cfg.ROTATETOTARGETSPEED3 / 180 * π
      else if |trackerDiffDelta| / π * 180 < cfg.ANGLEDIFF1 then cfg.ROTATETOTARGETSPEED2 / 180 * π
      else cfg.ROTATETOTARGETSPEED1 / 180 * π
  let angular := if trackerDiffDelta < 0 then -angular else angular
  let isPrecise : Bool := decide (|trackerDiffDelta| / π * 180 < cfg.ANGLEPRECISE)
  let angular := if isPrecise then 0 else angular
  let precise := if isPrecise && decide (CurrRot = 0) then true else precise
  let angular := if |CurrSpeed| > 0 then 0 else angular
  { linear := 0, angular := angular, angleToTargetPrecise := precise,
    resetStateEstimationCalled := isPrecise }

/-- Arduino `map()` (library function, not among the sources), modelled as
real-valued linear interpolation. -/
def arduinoMap (x inMin inMax outMin outMax : ℝ) : ℝ :=
  (x - inMin) * (outMax - outMin) / (inMax - inMin) + outMin

/-- `LineTracker.cpp` lines 122–148: Stanley gain scheduling.  The C++ code
overwrites the `stanleyTracking*` globals with the FLOAT presets on
FLOAT/INVALID solutions; the globals' current values enter as
`normalK normalP slowK slowP`. -/
def stanleyGains (cfg : LineCfg) (sol : Solution) (CurrSpeed : ℝ)
    (trackSlow trackslowAllowed : Bool)
    (normalK normalP slowK slowP : ℝ) : ℝ × ℝ :=
  if cfg.MAP_STANLEY_CONTROL then
    let nK := if sol = .float ∨ sol = .invalid then cfg.STANLEY_FLOAT_K_NORMAL else normalK
    let nP := if sol = .float ∨ sol = .invalid then cfg.STANLEY_FLOAT_P_NORMAL else normalP
    let sK := if sol = .float ∨ sol = .invalid then cfg.STANLEY_FLOAT_K_SLOW else slowK
    let sP := if sol = .float ∨ sol = .invalid then cfg.STANLEY_FLOAT_P_SLOW else slowP
    let k := arduinoMap (|CurrSpeed| * 1000) (cfg.MOTOR_MIN_SPEED * 1000)
      (cfg.MOTOR_MAX_SPEED * 1000) (sK * 1000) (nK * 1000) / 1000
    let p := arduinoMap (|CurrSpeed| * 1000) (cfg.MOTOR_MIN_SPEED * 1000)
      (cfg.MOTOR_MAX_SPEED * 1000) (sP * 1000) (nP * 1000) / 1000
    (max sK (min nK k), max sP (min nP p))
  else
    if trackSlow && trackslowAllowed then (slowK, slowP) else (normalK, normalP)

/-- `LineTracker.cpp` lines 116–160 (`stanleyTracker`): cross-track steering
law — `p * angleError + atan2(k * crossTrackError, 0.001 + |speed|)`,
then the clamp of line 152 to ±π/6. -/
def stanleyTracker (cfg : LineCfg) (sol : Solution)
    (CurrSpeed trackerDiffDelta lateralError : ℝ)
    (trackSlow trackslowAllowed : Bool)
    (normalK normalP slowK slowP : ℝ) : ℝ :=
  let kp := stanleyGains cfg sol CurrSpeed trackSlow trackslowAllowed normalK normalP slowK slowP
  let a := kp.2 * trackerDiffDelta + atan2 (kp.1 * lateralError) (0.001 + |CurrSpeed|)
  max (-(π / 6)) (min (π / 6) a)

/-- The per-tick inputs of `LineTracker.cpp::trackLine` and its helpers:
tracking-error geometry, measured/commanded speeds, sensor and planner state
(`maps.*`, `motor.*`, `sonar.*`), dock phase flags, and the current values of
the `stanleyTracking*` globals. -/
structure TrackInput where
  targetDist : ℝ
  lastTargetDist : ℝ
  distToPath : ℝ
  trackerDiffDelta : ℝ
  lateralError : ℝ
  CurrSpeed : ℝ
  CurrRot : ℝ
  setSpeed : ℝ
  solution : Solution
  angleToTargetPrecise : Bool
  dockTimer : Bool
  unDockTimer : Bool
  sonarNearObstacle : Bool
  motorLeftOverload : Bool
  motorRightOverload : Bool
  motorMowOverload : Bool
  keepslow : Bool
  retryslow : Bool
  trackSlow : Bool
  isAtDockPath : Bool
  isGoingToDockPath : Bool
  trackReverse : Bool
  straight : Bool
  wasStraight : Bool
  normalK : ℝ
  normalP : ℝ
  slowK : ℝ
  slowP : ℝ

/-- `LineTracker.cpp` lines 212–223: the `linearBool[]` conditions paired
with the `linearSpeed[]` cap values, including the line-223 override that
disables the near-waypoint cap when the distance ramp is configured. -/
def capConditions (cfg : LineCfg) (t : TrackInput) (trackslowAllowed : Bool) :
    List (Bool × ℝ) :=
  [ (decide (t.solution = .float), cfg.FLOATSPEED),
    (if cfg.DISTANCE_RAMP then false
     else decide (t.targetDist < cfg.NEARWAYPOINTDISTANCE ∨
                  t.lastTargetDist < cfg.NEARWAYPOINTDISTANCE), cfg.NEARWAYPOINTSPEED),
    (t.sonarNearObstacle, cfg.SONARSPEED),
    (t.motorLeftOverload || t.motorRightOverload || t.motorMowOverload, cfg.OVERLOADSPEED),
    (t.keepslow, cfg.KEEPSLOWSPEED),
    (t.retryslow, cfg.RETRYSLOWSPEED),
    (t.trackSlow && trackslowAllowed, cfg.TRACKSLOWSPEED),
    (t.dockTimer || t.unDockTimer, cfg.DOCK_NO_ROTATION_SPEED),
    (t.isAtDockPath, cfg.DOCKPATHSPEED),
    (t.isGoingToDockPath, cfg.DOCKSPEED) ]

/-- `LineTracker.cpp` lines 226–233: the selection loop — starting from the
`setSpeed` baseline of line 209, a true condition whose cap value is strictly
below the current choice replaces it. -/
def capFold : ℝ → List (Bool × ℝ) → ℝ
  | lin, [] => lin
  | lin, c :: rest => capFold (if c.1 ∧ c.2 < lin then c.2 else lin) rest

/-- `LineTracker.cpp` lines 209–233: the speed-cap stage of
`linearSpeedState()` — the chosen linear speed before the distance ramp
(lines 245–249) and before the reverse sign flip (line 253). -/
def linearSpeedCapStage (cfg : LineCfg) (setSpeed : ℝ) (t : TrackInput)
    (trackslowAllowed : Bool) : ℝ :=
  capFold setSpeed (capConditions cfg t trackslowAllowed)

/-- `LineTracker.cpp` lines 256–287 (`distanceRamp`): distance-proportional
deceleration ramp; returns the ramped speed and the updated `wasStraight`
static. -/
def distanceRampFn (cfg : LineCfg) (linear setSpeed targetDist lastTargetDist : ℝ)
    (straight wasStraight : Bool) : ℝ × Bool :=
  let maxSpeed := linear * 1000
  let minSpeed := cfg.DISTANCE_RAMP_MINSPEED * 1000
  let maxDist0 := linear * cfg.NEARWAYPOINTDISTANCE / setSpeed * 1000
  let approaching : Bool := decide (targetDist ≤ lastTargetDist)
  let maxDist := if approaching then maxDist0 + maxSpeed else maxDist0
  let minSpeed1 := if approaching then
      (if straight then cfg.TRANSITION_SPEED * 1000 else minSpeed)
    else (if wasStraight then cfg.TRANSITION_SPEED * 1000 else minSpeed)
  let wasStraight1 := if approaching then straight else wasStraight
  let actDist := (if approaching then targetDist else lastTargetDist) * 1000
  let actDist := if targetDist + lastTargetDist < maxDist then actDist * 2 else actDist
  let rampSpeed := arduinoMap actDist 0 maxDist minSpeed1 maxSpeed
  (max minSpeed1 (min maxSpeed rampSpeed) / 1000, wasStraight1)

/-- `LineTracker.cpp` lines 162–254 (`linearSpeedState`): cap stage, then the
distance ramp when configured and near a waypoint, then the reverse-tracking
sign flip; `trackslow_allowed` is set `true` at line 192 (the docking check
is commented out in the source). -/
def linearSpeedStateFn (cfg : LineCfg) (t : TrackInput) : ℝ × Bool :=
  let trackslowAllowed := true
  let linear := linearSpeedCapStage cfg t.setSpeed t trackslowAllowed
  let lr :=
    if cfg.DISTANCE_RAMP ∧ (t.targetDist < 2 * cfg.NEARWAYPOINTDISTANCE ∨
        t.lastTargetDist < 2 * cfg.NEARWAYPOINTDISTANCE) then
      distanceRampFn cfg linear t.setSpeed t.targetDist t.lastTargetDist t.straight t.wasStraight
    else (linear, t.wasStraight)
  (if t.trackReverse then -lr.1 else lr.1, lr.2)

/-- `LineTracker.cpp` lines 436–441: the sub-controller selection of
`trackLine` — rotate-in-place when the gate is false, otherwise speed
selection followed by the Stanley tracker.  Returns the `(linear, angular)`
command pair produced by this stage. -/
def trackLineSelect (cfg : LineCfg) (t : TrackInput) : ℝ × ℝ :=
  let fits := AngleToTargetFits cfg t.targetDist t.lastTargetDist t.distToPath
    t.trackerDiffDelta t.angleToTargetPrecise t.dockTimer t.unDockTimer
  if fits then
    (( linearSpeedStateFn cfg t).1,
      stanleyTracker cfg t.solution t.CurrSpeed t.trackerDiffDelta t.lateralError
        t.trackSlow true t.normalK t.normalP t.slowK t.slowP)
  else
    let r := rotateToTarget cfg fits t.angleToTargetPrecise t.trackerDiffDelta
      t.CurrSpeed t.CurrRot
    (r.linear, r.angular)

/-- C3: on every tracking tick with the gate true, the commanded angular
velocity equals `p * angleError + atan2(k * crossTrackError, ε + |speed|)`
clamped to [−π/6, π/6] (with `(k, p)` the scheduled gains), and — for every
input, including zero or negative current speed — its magnitude never
exceeds π/6. -/
theorem stanley_formula_and_clamp (cfg : LineCfg) (sol : Solution)
    (CurrSpeed trackerDiffDelta lateralError nK nP sK sP : ℝ)
    (trackSlow tsAllowed : Bool) :
    stanleyTracker cfg sol CurrSpeed trackerDiffDelta lateralError trackSlow tsAllowed
        nK nP sK sP =
      max (-(π / 6)) (min (π / 6)
        ((stanleyGains cfg sol CurrSpeed trackSlow tsAllowed nK nP sK sP).2 * trackerDiffDelta +
          atan2 ((stanleyGains cfg sol CurrSpeed trackSlow tsAllowed nK nP sK sP).1 * lateralError)
            (0.001 + |CurrSpeed|))) ∧
    |stanleyTracker cfg sol CurrSpeed trackerDiffDelta lateralError trackSlow tsAllowed
        nK nP sK sP| ≤ π / 6 := by
  constructor
  · rfl
  · rw [abs_le]
    constructor
    · exact le_max_left _ _
    · exact max_le (by linarith [Real.pi_pos]) (min_le_left _ _)

lemma foldr_min_min (v x : ℝ) (l : List ℝ) :
    l.foldr min (min v x) = min v (l.foldr min x) := by
  induction l with
  | nil => rfl
  | cons a l ih =>
      simp only [List.foldr_cons, ih]
      rw [min_left_comm]

lemma foldr_min_le_init (l : List ℝ) (x : ℝ) : l.foldr min x ≤ x := by
  induction l with
  | nil => exact le_refl x
  | cons a l ih => exact le_trans (min_le_right a _) ih

lemma capFold_eq_foldr (l : List (Bool × ℝ)) (lin : ℝ) :
    capFold lin l = ((l.filter (fun c => c.1)).map (fun c => c.2)).foldr min lin := by
  induction l generalizing lin with
  | nil => rfl
  | cons c l ih =>
      obtain ⟨b, v⟩ := c
      cases b with
      | false =>
          simp only [capFold, ih]
          simp
      | true =>
          simp only [capFold, ih, List.filter_cons_of_pos, List.map_cons,
            List.foldr_cons]
          split_ifs with h

          · calc List.foldr min v ((l.filter (fun c => c.1)).map (fun c => c.2))
                  = List.foldr min (min v lin)
                      ((l.filter (fun c => c.1)).map (fun c => c.2)) := by
                    rw [min_eq_left h.2.le]
              _ = min v (List.foldr min lin
                      ((l.filter (fun c => c.1)).map (fun c => c.2))) :=
                    foldr_min_min v lin _
          · have hv : lin ≤ v := by
              rcases not_and_or.mp h with h' | h'
              · exact absurd trivial h'
              · exact not_lt.mp h'
            have hF : ((l.filter (fun c => c.1)).map (fun c => c.2)).foldr min lin ≤ v :=
              le_trans (foldr_min_le_init _ _) hv
            rw [min_eq_right hF]

/-- C4: the speed selected by the speed-cap stage (before the distance ramp
and the reverse sign flip) is exactly the minimum of the setpoint speed and
the cap values of all situational caps whose conditions hold on the tick —
in particular the lowest value among any set of simultaneously true caps and
the setpoint wins. -/
theorem linear_speed_cap_stage_is_minimum (cfg : LineCfg) (setSpeed : ℝ)
    (t : TrackInput) (tsAllowed : Bool) :
    linearSpeedCapStage cfg setSpeed t tsAllowed =
      (((capConditions cfg t tsAllowed).filter (fun c => c.1)).map
        (fun c => c.2)).foldr min setSpeed := by
  unfold linearSpeedCapStage
  exact capFold_eq_foldr _ _

/-- C5: with the robot at least 0.3 m from both the target and the previous
target, at most 1.0 m from the path, no dock/undock no-rotation phase
active, and an angle error of at least the 45° gate threshold (e.g. 50°),
the gate is false, the rotate-in-place sub-controller is selected and the
commanded linear velocity is exactly 0. -/
theorem rotate_in_place_selected_linear_zero (cfg : LineCfg) (t : TrackInput)
    (h1 : t.targetDist ≥ 0.3) (h2 : t.lastTargetDist ≥ 0.3)
    (h3 : |t.distToPath| ≤ 1.0)
    (h4 : t.dockTimer = false) (h5 : t.unDockTimer = false)
    (h6 : |t.trackerDiffDelta| / π * 180 ≥ 45) :
    AngleToTargetFits cfg t.targetDist t.lastTargetDist t.distToPath
      t.trackerDiffDelta t.angleToTargetPrecise t.dockTimer t.unDockTimer = false ∧
    (trackLineSelect cfg t).1 = 0 := by
  have hfits : AngleToTargetFits cfg t.targetDist t.lastTargetDist t.distToPath
      t.trackerDiffDelta t.angleToTargetPrecise t.dockTimer t.unDockTimer = false := by
    have hc : ¬(t.targetDist < 0.3 ∨ t.lastTargetDist < 0.3 ∨ |t.distToPath| > 1.0) := by
      push_neg
      exact ⟨h1, h2, h3⟩
    unfold AngleToTargetFits
    rw [if_neg hc, decide_eq_false (not_lt.mpr h6)]
    simp [h4, h5]
  refine ⟨hfits, ?_⟩
  unfold trackLineSelect
  rw [hfits]
  simp [rotateToTarget]

/-- C5 witness: 50° angle error, 1 m from both waypoints, on the path, no
dock phase — the gate is false and the selected linear command is 0. -/
theorem rotate_in_place_selected_linear_zero_witness :
    AngleToTargetFits
      ⟨20, false, 5, 40, 20, 5, 2, 60, 30, 10, false, 0, 0, 0, 0, 0.1, 0.5,
        0.1, 0.1, 0.1, 0.1, 0.1, 0.1, 0.1, 0.1, 0.1, 0.1, 0.5, false, 0.05, 0.2,
        true, 1, 0.2, 1⟩
      1 1 0 (50 / 180 * π) true false false = false ∧
    (trackLineSelect
      ⟨20, false, 5, 40, 20, 5, 2, 60, 30, 10, false, 0, 0, 0, 0, 0.1, 0.5,
        0.1, 0.1, 0.1, 0.1, 0.1, 0.1, 0.1, 0.1, 0.1, 0.1, 0.5, false, 0.05, 0.2,
        true, 1, 0.2, 1⟩
      ⟨1, 1, 0, 50 / 180 * π, 0, 0, 0, 0.3, .fixed, true, false, false, false,
        false, false, false, false, false, false, false, false, false, false,
        false, 1, 3, 0.1, 1⟩).1 = 0 := by
  have h50 : |(50 / 180 * π : ℝ)| / π * 180 = 50 := by
    rw [abs_of_pos (by positivity)]
    field_simp
    ring
  exact rotate_in_place_selected_linear_zero
    ⟨20, false, 5, 40, 20, 5, 2, 60, 30, 10, false, 0, 0, 0, 0, 0.1, 0.5,
      0.1, 0.1, 0.1, 0.1, 0.1, 0.1, 0.1, 0.1, 0.1, 0.1, 0.5, false, 0.05, 0.2,
      true, 1, 0.2, 1⟩
    ⟨1, 1, 0, 50 / 180 * π, 0, 0, 0, 0.3, .fixed, true, false, false, false,
      false, false, false, false, false, false, false, false, false, false,
      false, 1, 3, 0.1, 1⟩
    (by norm_num) (by norm_num) (by norm_num) rfl rfl
    (by show |(50 / 180 * π : ℝ)| / π * 180 ≥ 45
        rw [h50]
        norm_num)

/-- C10: in the rotate-in-place sub-controller, whenever the measured linear
speed is nonzero (robot still translating), the commanded output of the tick
is linear = 0 and angular = 0. -/
theorem rotate_no_rotation_while_translating (cfg : LineCfg)
    (fits precise : Bool) (trackerDiffDelta CurrSpeed CurrRot : ℝ)
    (h : |CurrSpeed| > 0) :
    (rotateToTarget cfg fits precise trackerDiffDelta CurrSpeed CurrRot).linear = 0 ∧
    (rotateToTarget cfg fits precise trackerDiffDelta CurrSpeed CurrRot).angular = 0 := by
  unfold rotateToTarget
  refine ⟨rfl, ?_⟩
  simp only [if_pos h]

/-- C10 witness: still moving at 0.2 m/s, the rotate-in-place output is
(0, 0). -/
theorem rotate_no_rotation_while_translating_witness :
    (rotateToTarget
      ⟨20, false, 5, 40, 20, 5, 2, 60, 30, 10, false, 0, 0, 0, 0, 0.1, 0.5,
        0.1, 0.1, 0.1, 0.1, 0.1, 0.1, 0.1, 0.1, 0.1, 0.1, 0.5, false, 0.05, 0.2,
        true, 1, 0.2, 1⟩
      false true (50 / 180 * π) 0.2 0).linear = 0 ∧
    (rotateToTarget
      ⟨20, false, 5, 40, 20, 5, 2, 60, 30, 10, false, 0, 0, 0, 0, 0.1, 0.5,
        0.1, 0.1, 0.1, 0.1, 0.1, 0.1, 0.1, 0.1, 0.1, 0.1, 0.5, false, 0.05, 0.2,
        true, 1, 0.2, 1⟩
      false true (50 / 180 * π) 0.2 0).angular = 0 := by
  exact rotate_no_rotation_while_translating _ _ _ _ _ _ (by norm_num)

/-- `robot.cpp` lines 880–890 (`detectLift`): reports a lift only when lift
detection is compiled in (`ENABLE_LIFT_DETECTION`) and the lift driver is
triggered. -/
def detectLift (enableLiftDetection liftTriggered : Bool) : Bool :=
  if enableLiftDetection then liftTriggered else false

/-- What the `runControl` tail of `LineTracker.cpp::trackLine`
(lines 491–503) sends to the motor interface in one tick: the velocity pair
passed to `motor.setLinearAngularSpeed` and the optional
`motor.setMowState` call. -/
structure ControlOut where
  linear : ℝ
  angular : ℝ
  mow : Bool
  setMowCall : Option Bool

/-- `LineTracker.cpp` lines 491–503: lift override (zero velocity, mow off)
followed by the conditional `setMowState` call and the unconditional
`setLinearAngularSpeed` call. -/
def trackLineControl (liftDetected : Bool) (linear angular : ℝ)
    (mow switchedOn enableMowMotor : Bool) : ControlOut :=
  let mow1 := if liftDetected then false else mow
  let linear1 := if liftDetected then 0 else linear
  let angular1 := if liftDetected then 0 else angular
  { linear := linear1, angular := angular1, mow := mow1,
    setMowCall := if mow1 ≠ switchedOn ∧ enableMowMotor then some mow1 else none }

/-- C6: on every control tick on which the lift driver reports the robot
lifted, the velocity command sent to the motor interface is (0, 0) and mowing
is disabled for that tick (the mow flag is forced false and the motor is
never switched on), regardless of the controller's earlier outputs. -/
theorem lift_zeroes_velocity_and_disables_mow
    (enableLiftDetection liftTriggered : Bool) (linear angular : ℝ)
    (mow switchedOn enableMowMotor : Bool)
    (h : detectLift enableLiftDetection liftTriggered = true) :
    (trackLineControl (detectLift enableLiftDetection liftTriggered)
        linear angular mow switchedOn enableMowMotor).linear = 0 ∧
    (trackLineControl (detectLift enableLiftDetection liftTriggered)
        linear angular mow switchedOn enableMowMotor).angular = 0 ∧
    (trackLineControl (detectLift enableLiftDetection liftTriggered)
        linear angular mow switchedOn enableMowMotor).mow = false ∧
    (trackLineControl (detectLift enableLiftDetection liftTriggered)
        linear angular mow switchedOn enableMowMotor).setMowCall ≠ some true := by
  rw [h]
  unfold trackLineControl
  refine ⟨by simp, by simp, by simp, ?_⟩
  simp only [if_pos trivial, if_true]
  split_ifs <;> simp

/-- C6 witness: lift detection enabled and triggered while the controller
computed (0.4 m/s, 0.2 rad/s, mow on): the sent command is (0, 0) and mowing
is forced off. -/
theorem lift_zeroes_velocity_and_disables_mow_witness :
    (trackLineControl (detectLift true true) 0.4 0.2 true true true).linear = 0 ∧
    (trackLineControl (detectLift true true) 0.4 0.2 true true true).angular = 0 ∧
    (trackLineControl (detectLift true true) 0.4 0.2 true true true).mow = false ∧
    (trackLineControl (detectLift true true) 0.4 0.2 true true true).setMowCall ≠ some true :=
  lift_zeroes_velocity_and_disables_mow true true 0.4 0.2 true true true rfl

/-- `LineTracker.cpp` lines 304–329: the kidnap-detection part of
`gpsConditions()`.  Returns the updated `stateKidnapped` flag and the list of
`activeOp->onKidnapped(...)` events delivered on this tick (in order). -/
def kidnapCheck (cfg : LineCfg) (isUndocking isDocking : Bool)
    (dockX dockY stateX stateY distToPath : ℝ)
    (stateKidnapped : Bool) : Bool × List Bool :=
  if cfg.KIDNAP_DETECT then
    let allowedPathTolerance :=
      if (isUndocking ∨ isDocking) ∧
          distance dockX dockY stateX stateY < cfg.KIDNAP_DETECT_DISTANCE_DOCK_UNDOCK then
        cfg.KIDNAP_DETECT_ALLOWED_PATH_TOLERANCE_DOCK_UNDOCK
      else cfg.KIDNAP_DETECT_ALLOWED_PATH_TOLERANCE
    if |distToPath| > allowedPathTolerance then
      if !stateKidnapped then (true, [true]) else (stateKidnapped, [])
    else
      if stateKidnapped then (false, [false]) else (stateKidnapped, [])
  else (stateKidnapped, [])

/-- C7: kidnap detection is edge-triggered.  With kidnap detection enabled,
and the allowed tolerance being the tightened dock/undock value exactly when
docking or undocking within the configured distance of the dock, the new
kidnapped state equals "|distance-to-path| exceeds the tolerance", an
`onKidnapped(true)` event is delivered exactly on the false→true transition,
an `onKidnapped(false)` event exactly on the true→false transition, and no
event is delivered when the state does not change. -/
theorem kidnap_detection_edge_triggered (cfg : LineCfg)
    (isUndocking isDocking : Bool) (dockX dockY stateX stateY distToPath : ℝ)
    (stateKidnapped : Bool) (hEnable : cfg.KIDNAP_DETECT = true) :
    (kidnapCheck cfg isUndocking isDocking dockX dockY stateX stateY distToPath
        stateKidnapped).1 =
      decide (|distToPath| >
        (if (isUndocking ∨ isDocking) ∧
            distance dockX dockY stateX stateY < cfg.KIDNAP_DETECT_DISTANCE_DOCK_UNDOCK then
          cfg.KIDNAP_DETECT_ALLOWED_PATH_TOLERANCE_DOCK_UNDOCK
        else cfg.KIDNAP_DETECT_ALLOWED_PATH_TOLERANCE)) ∧
    (kidnapCheck cfg isUndocking isDocking dockX dockY stateX stateY distToPath
        stateKidnapped).2 =
      (if (kidnapCheck cfg isUndocking isDocking dockX dockY stateX stateY distToPath
            stateKidnapped).1 = stateKidnapped then []
       else [(kidnapCheck cfg isUndocking isDocking dockX dockY stateX stateY distToPath
            stateKidnapped).1]) := by
  unfold kidnapCheck
  rw [if_pos hEnable]
  by_cases hd : |distToPath| >
      (if (isUndocking ∨ isDocking) ∧
          distance dockX dockY stateX stateY < cfg.KIDNAP_DETECT_DISTANCE_DOCK_UNDOCK then
        cfg.KIDNAP_DETECT_ALLOWED_PATH_TOLERANCE_DOCK_UNDOCK
      else cfg.KIDNAP_DETECT_ALLOWED_PATH_TOLERANCE)
  · rw [if_pos hd, decide_eq_true hd]
    cases stateKidnapped <;> simp
  · rw [if_neg hd, decide_eq_false hd]
    cases stateKidnapped <;> simp

/-- C7 witness: detection enabled, not docking, tolerance 1 m, robot 2 m off
the path, previously not kidnapped: the state flips to true and exactly one
`onKidnapped(true)` event is delivered. -/
theorem kidnap_detection_edge_triggered_witness :
    (kidnapCheck
      ⟨20, false, 5, 40, 20, 5, 2, 60, 30, 10, false, 0, 0, 0, 0, 0.1, 0.5,
        0.1, 0.1, 0.1, 0.1, 0.1, 0.1, 0.1, 0.1, 0.1, 0.1, 0.5, false, 0.05, 0.2,
        true, 1, 0.2, 1⟩
      false false 0 0 0 0 2 false).1 =
      decide ((|(2 : ℝ)| >
        (if ((false : Bool) ∨ (false : Bool)) ∧
            distance 0 0 0 0 < (1 : ℝ) then (0.2 : ℝ) else (1 : ℝ)))) ∧
    (kidnapCheck
      ⟨20, false, 5, 40, 20, 5, 2, 60, 30, 10, false, 0, 0, 0, 0, 0.1, 0.5,
        0.1, 0.1, 0.1, 0.1, 0.1, 0.1, 0.1, 0.1, 0.1, 0.1, 0.5, false, 0.05, 0.2,
        true, 1, 0.2, 1⟩
      false false 0 0 0 0 2 false).2 =
      (if (kidnapCheck
            ⟨20, false, 5, 40, 20, 5, 2, 60, 30, 10, false, 0, 0, 0, 0, 0.1, 0.5,
              0.1, 0.1, 0.1, 0.1, 0.1, 0.1, 0.1, 0.1, 0.1, 0.1, 0.5, false, 0.05, 0.2,
              true, 1, 0.2, 1⟩
            false false 0 0 0 0 2 false).1 = false then []
       else [(kidnapCheck
            ⟨20, false, 5, 40, 20, 5, 2, 60, 30, 10, false, 0, 0, 0, 0, 0.1, 0.5,
              0.1, 0.1, 0.1, 0.1, 0.1, 0.1, 0.1, 0.1, 0.1, 0.1, 0.5, false, 0.05, 0.2,
              true, 1, 0.2, 1⟩
            false false 0 0 0 0 2 false).1]) :=
  kidnap_detection_edge_triggered _ false false 0 0 0 0 2 false rfl

/-- Configuration constants from `config.h` read by
`robot.cpp::detectObstacle` and the `robotShould*` predicates. -/
structure ObstacleCfg where
  MOTOR_MIN_SPEED : ℝ
  ENABLE_LIFT_DETECTION : Bool
  LIFT_OBSTACLE_AVOIDANCE : Bool
  BUMPER_DEADTIME : ℕ
  SONAR_TRIGGER_OBSTACLES : Bool
  GPS_SPEED_DEADTIME : ℕ
  NO_GPS_OBSTACLE : Bool
  GPS_SPEED_DETECTION : Bool
  GPS_SPEED_DELAY : ℕ
  GPS_MOTION_DETECTION_TIMEOUT : ℕ
  GPS_MOTION_DETECTION_DELTA : ℝ
  GPS_MOTION_DETECTION : Bool
  NEARWAYPOINTDISTANCE : ℝ

/-- Per-tick inputs of `robot.cpp::detectObstacle`: the clock, commanded
speeds, sensor readings and the estimator outputs consulted there. -/
structure ObstacleInput where
  now : ℕ
  linearSpeedSet : ℝ
  angularSpeedSet : ℝ
  gpsObstacleNotAllowedTime : ℕ
  linearMotionStartTime : ℕ
  liftTriggered : Bool
  bumperObstacle : Bool
  bumperObstacleLeft : Bool
  sonarObstacle : Bool
  wayModeIsDock : Bool
  isAtDockPath : Bool
  stateGroundSpeed : ℝ
  deltaTime : ℕ
  stateX : ℝ
  stateY : ℝ
  imuFound : Bool
  targetDist : ℝ
  lastTargetDist : ℝ
  diffIMUWheelYawSpeedLP : ℝ
  stateDeltaSpeedIMU : ℝ
  stateDeltaSpeedWheels : ℝ

/-- The persistent state read/written by `detectObstacle`: its two function
statics plus the `robot.cpp` globals it updates. -/
structure ObstacleState where
  lastBumperTime : ℕ
  noGPSSpeedTime : ℕ
  gpsObstacleNotAllowed : Bool
  nextGPSMotionCheckTime : ℕ
  overallMotionTimeout : ℕ
  lastGPSMotionX : ℝ
  lastGPSMotionY : ℝ

/-- The distinct obstacle causes of `detectObstacle`, in source order. -/
inductive ObstacleCause where
  | lift : ObstacleCause
  | bumper : ObstacleCause
  | sonar : ObstacleCause
  | gpsSpeed : ObstacleCause
  | gpsMotion : ObstacleCause
  | imuWheelDiff : ObstacleCause
  | imuDeltaSpeed : ObstacleCause
deriving DecidableEq

/-- `robot.cpp` lines 723–726 (`robotShouldMove`). -/
def robotShouldMove (cfg : ObstacleCfg) (linearSpeedSet : ℝ) : Bool :=
  decide (|linearSpeedSet| ≥ cfg.MOTOR_MIN_SPEED)

/-- `robot.cpp` lines 738–741 (`robotShouldRotate`). -/
def robotShouldRotate (cfg : ObstacleCfg) (linearSpeedSet angularSpeedSet : ℝ) : Bool :=
  decide (|linearSpeedSet| < cfg.MOTOR_MIN_SPEED ∧ |angularSpeedSet| / π * 180 > 4)

/-- `robot.cpp` lines 894–1036 (`detectObstacle`): sequential obstacle
checks with early returns.  Returns the C++ return value, the updated
persistent state, and the causes for which `triggerObstacle()` raised an
obstacle event on this tick (at most one, since every trigger returns). -/
def detectObstacle (cfg : ObstacleCfg) (i : ObstacleInput) (st : ObstacleState) :
    Bool × ObstacleState × List ObstacleCause :=
  if !(robotShouldMove cfg i.linearSpeedSet) then (false, st, [])
  else
    let st := if i.now > i.gpsObstacleNotAllowedTime then
        { st with gpsObstacleNotAllowed := false } else st
    -- lift (robot.cpp lines 901–910)
    if cfg.ENABLE_LIFT_DETECTION && cfg.LIFT_OBSTACLE_AVOIDANCE &&
        decide (i.now > i.linearMotionStartTime + cfg.BUMPER_DEADTIME) &&
        i.liftTriggered then
      (true, st, [.lift])
    -- bumper (lines 914–931)
    else if decide (i.now > st.lastBumperTime + cfg.BUMPER_DEADTIME) && i.bumperObstacle then
      (true, { st with lastBumperTime := i.now }, [.bumper])
    -- sonar (lines 933–941): falls through when SONAR_TRIGGER_OBSTACLES is off
    else if i.sonarObstacle && !i.wayModeIsDock && cfg.SONAR_TRIGGER_OBSTACLES then
      (true, st, [.sonar])
    else
      -- gps ground-speed deficit (lines 944–963)
      let speedCheck : Bool :=
        decide (i.now > i.linearMotionStartTime + cfg.GPS_SPEED_DEADTIME) &&
        decide (i.stateGroundSpeed < |i.linearSpeedSet / 4|)
      let st := if speedCheck then
          { st with noGPSSpeedTime := st.noGPSSpeedTime + i.deltaTime } else st
      if speedCheck && (cfg.NO_GPS_OBSTACLE && st.gpsObstacleNotAllowed) then
        (false, st, [])
      else if speedCheck && (cfg.GPS_SPEED_DETECTION && !i.isAtDockPath) &&
          decide (st.noGPSSpeedTime > cfg.GPS_SPEED_DELAY) then
        (true, { st with noGPSSpeedTime := 0 }, [.gpsSpeed])
      else
        -- gps no-motion timeout (lines 966–999)
        let motionCheck : Bool :=
          decide (i.now > st.nextGPSMotionCheckTime) ||
          decide (i.now > st.overallMotionTimeout)
        let st := if motionCheck then
            { st with
              nextGPSMotionCheckTime := i.now + cfg.GPS_MOTION_DETECTION_TIMEOUT * 1000,
              overallMotionTimeout := i.now + 10000 } else st
        let delta := Real.sqrt ((st.lastGPSMotionX - i.stateX) ^ 2 +
          (st.lastGPSMotionY - i.stateY) ^ 2)
        if motionCheck && decide (delta < cfg.GPS_MOTION_DETECTION_DELTA) &&
            (cfg.NO_GPS_OBSTACLE && st.gpsObstacleNotAllowed) then
          (false, st, [])
        else if motionCheck && decide (delta < cfg.GPS_MOTION_DETECTION_DELTA) &&
            cfg.GPS_MOTION_DETECTION then
          (true, st, [.gpsMotion])
        else
          let st := if motionCheck then
              { st with lastGPSMotionX := i.stateX, lastGPSMotionY := i.stateY } else st
          -- IMU/wheel deflection while line tracking (lines 1002–1035)
          let deflectionWindow : Bool :=
            i.imuFound && decide (i.targetDist > cfg.NEARWAYPOINTDISTANCE / 2) &&
            decide (i.lastTargetDist > cfg.NEARWAYPOINTDISTANCE / 2) &&
            decide (i.now > i.linearMotionStartTime + cfg.BUMPER_DEADTIME)
          if deflectionWindow && !(robotShouldRotate cfg i.linearSpeedSet i.angularSpeedSet) &&
              decide (|i.diffIMUWheelYawSpeedLP| > 12 / 180 * π) then
            (true, st, [.imuWheelDiff])
          else if deflectionWindow &&
              !(robotShouldRotate cfg i.linearSpeedSet i.angularSpeedSet) &&
              decide (|i.stateDeltaSpeedIMU| > 12 / 180 * π) &&
              decide (|i.stateDeltaSpeedWheels| < |i.stateDeltaSpeedIMU / 3|) then
            (true, st, [.imuDeltaSpeed])
          else (false, st, [])

/-- C9: on every tick where the commanded linear speed magnitude is below the
minimum motor speed (`robotShouldMove()` false), `detectObstacle` returns
false immediately, leaves its persistent state untouched and raises no
obstacle event — every obstacle cause (lift, bumper, sonar, GPS ground-speed
deficit, GPS no-motion timeout, IMU/wheel deflection) is ignored that tick. -/
theorem obstacle_detection_skipped_when_not_moving (cfg : ObstacleCfg)
    (i : ObstacleInput) (st : ObstacleState)
    (h : |i.linearSpeedSet| < cfg.MOTOR_MIN_SPEED) :
    detectObstacle cfg i st = (false, st, []) := by
  unfold detectObstacle
  rw [if_pos]
  simp [robotShouldMove, not_le.mpr h]

/-- C9 witness: commanded 0.05 m/s with a 0.1 m/s minimum motor speed — even
with every sensor indicating an obstacle, `detectObstacle` returns false,
changes nothing and raises no event. -/
theorem obstacle_detection_skipped_when_not_moving_witness :
    detectObstacle
      ⟨0.1, true, true, 1000, true, 5000, true, true, 5000, 20, 0.05, true, 0.5⟩
      ⟨100000, 0.05, 0, 0, 0, true, true, true, true, false, false, 0, 100, 0, 0,
        true, 5, 5, 1, 1, 0⟩
      ⟨0, 0, false, 0, 0, 0, 0⟩ =
      (false, ⟨0, 0, false, 0, 0, 0, 0⟩, []) :=
  obstacle_detection_skipped_when_not_moving _ _ _
    (by rw [abs_of_pos] <;> norm_num)

/-- Operating mode (`OperationType` in `robot.cpp`); the bumper logic only
distinguishes `OP_ERROR` from the rest. -/
inductive OpType where
  | idle : OpType
  | mow : OpType
  | dock : OpType
  | charge : OpType
  | error : OpType
deriving DecidableEq

/-- Bumper configuration constants from `config.h` (not among the sources). -/
structure BumperCfg where
  BUMPER_ENABLE : Bool
  BUMPER_TRIGGER_DELAY : ℕ
  BUMPER_MAX_TRIGGER_TIME : ℕ

/-- The persistent bumper variables of `bumper.cpp` (lines 20–33). -/
structure BumperState where
  bumperLeft : Bool
  bumperRight : Bool
  outputLeftPressed : Bool
  outputRightPressed : Bool
  leftTrigTime : ℕ
  rightTrigTime : ℕ
  leftOnTimer : ℕ
  rightOnTimer : ℕ
  lastBumperTime : ℕ
deriving DecidableEq

/-- `bumper.cpp` lines 40–114 (`Bumper::run`): debounce/delay logic per side,
then the stuck detection of lines 88–108.  Returns the updated bumper state,
the (possibly changed) operating mode, and whether `setOperation(OP_ERROR)`
was called on this tick. -/
def bumperRun (cfg : BumperCfg) (now : ℕ) (inL inR : Bool)
    (st : BumperState) (op : OpType) : BumperState × OpType × Bool :=
  if cfg.BUMPER_ENABLE then
    let leftTrigTime := if inL && !st.bumperLeft then now else st.leftTrigTime
    let leftOnTimer0 := if inL && !st.bumperLeft then 0 else st.leftOnTimer
    let bumperLeft := inL
    let leftOnTimer := if inL then leftOnTimer0 + (now - st.lastBumperTime) else leftOnTimer0
    let outputLeftPressed :=
      if inL then
        (if now ≥ leftTrigTime + cfg.BUMPER_TRIGGER_DELAY then true else st.outputLeftPressed)
      else false
    let rightTrigTime := if inR && !st.bumperRight then now else st.rightTrigTime
    let rightOnTimer0 := if inR && !st.bumperRight then 0 else st.rightOnTimer
    let bumperRight := inR
    let rightOnTimer := if inR then rightOnTimer0 + (now - st.lastBumperTime) else rightOnTimer0
    let outputRightPressed :=
      if inR then
        (if now ≥ rightTrigTime + cfg.BUMPER_TRIGGER_DELAY then true else st.outputRightPressed)
      else false
    let st1 : BumperState :=
      { bumperLeft := bumperLeft, bumperRight := bumperRight,
        outputLeftPressed := outputLeftPressed, outputRightPressed := outputRightPressed,
        leftTrigTime := leftTrigTime, rightTrigTime := rightTrigTime,
        leftOnTimer := leftOnTimer, rightOnTimer := rightOnTimer,
        lastBumperTime := now }
    if (bumperRight || bumperLeft) &&
        decide (max leftOnTimer rightOnTimer >
          max leftTrigTime rightTrigTime + cfg.BUMPER_MAX_TRIGGER_TIME * 1000) &&
        decide (op ≠ .error) then
      ({ st1 with leftTrigTime := 0, rightTrigTime := 0,
                  leftOnTimer := 0, rightOnTimer := 0 }, .error, true)
    else (st1, op, false)
  else (st, op, false)

/-- Iterated `Bumper::run` over a list of ticks `(millis, leftInput,
rightInput)`. -/
def bumperSim (cfg : BumperCfg) (ticks : List (ℕ × Bool × Bool))
    (st : BumperState) (op : OpType) : BumperState × OpType :=
  ticks.foldl (fun acc t =>
    let r := bumperRun cfg t.1 t.2.1 t.2.2 acc.1 acc.2
    (r.1, r.2.1)) (st, op)

set_option maxRecDepth 10000 in
/-- C8 (failing-input evaluation): with `BUMPER_MAX_TRIGGER_TIME = 30` s and
`Bumper::run` ticked every second from boot, a left bumper press starting at
t = 100 s and held continuously through t = 131 s — i.e. pressed for 31 s,
longer than the configured maximum — never transitions the operation to
Error: the stuck check of `bumper.cpp` line 90 compares the accumulated
pressed duration (32 000 ms here) against the press-start timestamp plus the
threshold (130 000 ms here), so it cannot fire for presses that begin later
than `BUMPER_MAX_TRIGGER_TIME` after boot. -/
theorem bumper_stuck_timeout_never_fires_for_late_press :
    (bumperSim ⟨true, 100, 30⟩
      ((List.range 132).map (fun k => (k * 1000, decide (k * 1000 ≥ 100000), false)))
      ⟨false, false, false, false, 0, 0, 0, 0, 0⟩ .idle).2 = .idle ∧
    (bumperSim ⟨true, 100, 30⟩
      ((List.range 132).map (fun k => (k * 1000, decide (k * 1000 ≥ 100000), false)))
      ⟨false, false, false, false, 0, 0, 0, 0, 0⟩ .idle).1.leftOnTimer = 32000 := by
  constructor <;> decide

end

end Sunray
